import Mathlib

/-!
Shallow embedding of the two-phase element abstraction of `crates/gpui3/src/element.rs`
(`Element`, `ParentElement`, `RenderedElement`, `ElementRenderPhase`, `AnyElement`,
`IntoAnyElement`) and of the path predicates of `crates/git/src/repository.rs`
(`RealGitRepository::manages`, `RealGitRepository::in_dot_git`).

Rust `&mut` parameters are threaded explicitly: every operation returns its `Result`
together with the possibly mutated element value, shared state and frame state.  A ghost
event trace records each call the rendered-node wrapper makes into its collaborators
(the element's own `layout`/`paint` and the geometry provider's resolution), with the
arguments passed, so that claims about "observable draw calls" and "resolve call counts"
can be stated.
-/

namespace Zed

/-- Resolution-independent pixel coordinate (`Pixels`); modelled as an integer since the
claims under study concern data flow, not numeric rounding. -/
abbrev Pixels := Int

/-- Opaque layout-slot identifier issued by the geometry provider (`LayoutId`). -/
abbrev LayoutId := Nat

/-- A two-dimensional point (`Point<Pixels>`). -/
structure Point where
  x : Pixels
  y : Pixels
deriving DecidableEq, Repr

instance : Add Point := ⟨fun a b => ⟨a.x + b.x, a.y + b.y⟩⟩

/-- Modelled from the spec: resolved geometry carries a size besides its origin
(`Size<Pixels>`); the size is never touched by the code under study. -/
structure Size where
  width : Pixels
  height : Pixels
deriving DecidableEq, Repr

/-- Modelled from the spec: resolved geometry is bounds, an origin plus a size
(`Bounds<Pixels>`); the wrapper translates `bounds.origin` when an offset is supplied. -/
structure Bounds where
  origin : Point
  size : Size
deriving DecidableEq, Repr

/-- Modelled from the spec: the resolved geometry for a layout slot (`Layout`); the code
under study reads and translates only its `bounds`. -/
structure Layout where
  bounds : Bounds
deriving DecidableEq, Repr

/-- Applies `offset.map(|offset| layout.bounds.origin += offset)` from
`RenderedElement::paint`. -/
def Layout.apply_offset (l : Layout) : Option Point → Layout
  | none => l
  | some off => { l with bounds := { l.bounds with origin := l.bounds.origin + off } }

/-- A concrete element implementation (the `Element` trait) with shared-state type `S`,
frame-state type `F`, element-value type `E` and error type `ε`.  Each method returns its
`Result` alongside the possibly mutated element value, shared state and (for `paint`)
frame state, reflecting the `&mut` parameters of the trait. -/
structure ElementFns (E S F ε : Type) where
  layout : E → S → Except ε (LayoutId × F) × E × S
  paint : Layout → E → S → F → Except ε Unit × E × S × F

/-- Modelled from the spec: the geometry provider reached through the view context.
`resolve` is the `cx.layout(layout_id)` lookup used by `RenderedElement::paint`, which may
fail for a slot never requested or from a stale pass. -/
structure ViewContext (ε : Type) where
  resolve : LayoutId → Except ε Layout

/-- The per-node render phase (`ElementRenderPhase<S>`); `rendered` is the `#[default]`
variant the spec calls Unrendered. -/
inductive ElementRenderPhase (F : Type) where
  | rendered
  | layoutRequested (layout_id : LayoutId) (frame_state : F)
  | painted (layout : Layout) (frame_state : F)
deriving DecidableEq, Repr

/-- The rendered-node wrapper (`RenderedElement<E>`): one element value and its phase. -/
structure RenderedElement (E F : Type) where
  element : E
  phase : ElementRenderPhase F
deriving DecidableEq, Repr

/-- `RenderedElement::new`: wraps an element with the initial `Rendered` phase. -/
def RenderedElement.new {E F : Type} (element : E) : RenderedElement E F :=
  { element := element, phase := .rendered }

/-- Ghost instrumentation: one entry per call the wrapper makes into a collaborator, in
call order, recording the arguments passed (the geometry and frame state handed to the
element's `paint`, and the slot handed to the provider's resolution). -/
inductive RenderEvent (F : Type) where
  | elementLayout
  | resolve (layout_id : LayoutId)
  | elementPaint (layout : Layout) (frame_state : F)
deriving DecidableEq, Repr

/-- Forgets the frame-state argument of a trace event, matching the type erasure of the
opaque handle. -/
def RenderEvent.erase {F : Type} : RenderEvent F → RenderEvent Unit
  | .elementLayout => .elementLayout
  | .resolve i => .resolve i
  | .elementPaint l _ => .elementPaint l ()

/-- Outcome of a wrapper `paint` call: `panicked` models the diverging `panic` with its
diagnostic message; `ok` and `failed` model `Ok(())` and `Err(e)`. -/
inductive PaintResult (ε : Type) where
  | panicked (msg : String)
  | ok
  | failed (e : ε)
deriving DecidableEq, Repr

/-- Result of one wrapper `layout` call: the returned `Result`, the wrapper and shared
state afterwards, and the ghost trace. -/
structure LayoutStep (E S F ε : Type) where
  result : Except ε LayoutId
  node : RenderedElement E F
  state : S
  events : List (RenderEvent F)

/-- Result of one wrapper `paint` call: the outcome, the wrapper and shared state
afterwards, and the ghost trace. -/
structure PaintStep (E S F ε : Type) where
  result : PaintResult ε
  node : RenderedElement E F
  state : S
  events : List (RenderEvent F)

/-- `RenderedElement::layout` (element.rs lines 87-94): call the element's `layout`; on
success overwrite the phase with `LayoutRequested` and return the slot.  On failure the
`?` returns early, leaving the phase untouched. -/
def RenderedElement.layout {E S F ε : Type} (fns : ElementFns E S F ε)
    (re : RenderedElement E F) (state : S) : LayoutStep E S F ε :=
  match fns.layout re.element state with
  | (Except.error e, el, s) =>
      { result := .error e, node := { re with element := el }, state := s,
        events := [.elementLayout] }
  | (Except.ok (layout_id, frame_state), el, s) =>
      { result := .ok layout_id,
        node := { element := el, phase := .layoutRequested layout_id frame_state },
        state := s, events := [.elementLayout] }

/-- `RenderedElement::paint` (element.rs lines 96-133).  The source first takes the phase
out of `self` with a take that installs the default `rendered` phase; the match result is
written back only at the end, so every early return (the panic and both `?` operators)
leaves the node in the `rendered` phase. -/
def RenderedElement.paint {E S F ε : Type} (fns : ElementFns E S F ε)
    (cx : ViewContext ε) (re : RenderedElement E F) (state : S)
    (offset : Option Point) : PaintStep E S F ε :=
  match re.phase with
  | .rendered =>
      { result := .panicked "must call layout before paint",
        node := { re with phase := .rendered }, state := state, events := [] }
  | .layoutRequested layout_id frame_state =>
      match cx.resolve layout_id with
      | .error e =>
          { result := .failed e, node := { re with phase := .rendered },
            state := state, events := [.resolve layout_id] }
      | .ok resolved =>
          let layout := resolved.apply_offset offset
          match fns.paint layout re.element state frame_state with
          | (Except.error e, el, s, _) =>
              { result := .failed e, node := { element := el, phase := .rendered },
                state := s,
                events := [.resolve layout_id, .elementPaint layout frame_state] }
          | (Except.ok _, el, s, f) =>
              { result := .ok, node := { element := el, phase := .painted layout f },
                state := s,
                events := [.resolve layout_id, .elementPaint layout frame_state] }
  | .painted layout frame_state =>
      match fns.paint layout re.element state frame_state with
      | (Except.error e, el, s, _) =>
          { result := .failed e, node := { element := el, phase := .rendered },
            state := s, events := [.elementPaint layout frame_state] }
      | (Except.ok _, el, s, f) =>
          { result := .ok, node := { element := el, phase := .painted layout f },
            state := s, events := [.elementPaint layout frame_state] }

/-- The opaque element handle (`AnyElement<S>`): a rendered-node wrapper whose element and
frame-state types are erased behind the handle; only the shared-state type `S` (and the
error type) remain visible. -/
structure AnyElement (S ε : Type) : Type 1 where
  E : Type
  F : Type
  fns : ElementFns E S F ε
  inner : RenderedElement E F

/-- Result of one handle `layout` call; the trace is erased. -/
structure AnyLayoutStep (S ε : Type) : Type 1 where
  result : Except ε LayoutId
  node : AnyElement S ε
  state : S
  events : List (RenderEvent Unit)

/-- Result of one handle `paint` call; the trace is erased. -/
structure AnyPaintStep (S ε : Type) : Type 1 where
  result : PaintResult ε
  node : AnyElement S ε
  state : S
  events : List (RenderEvent Unit)

/-- `AnyElement::layout` (element.rs lines 139-141): forward to the boxed wrapper. -/
def AnyElement.layout {S ε : Type} (a : AnyElement S ε) (state : S) :
    AnyLayoutStep S ε :=
  let r := RenderedElement.layout a.fns a.inner state
  { result := r.result, node := { a with inner := r.node }, state := r.state,
    events := r.events.map RenderEvent.erase }

/-- `AnyElement::paint` (element.rs lines 143-150): forward to the boxed wrapper. -/
def AnyElement.paint {S ε : Type} (a : AnyElement S ε) (cx : ViewContext ε)
    (state : S) (offset : Option Point) : AnyPaintStep S ε :=
  let r := RenderedElement.paint a.fns cx a.inner state offset
  { result := r.result, node := { a with inner := r.node }, state := r.state,
    events := r.events.map RenderEvent.erase }

/-- `impl IntoAnyElement for E` (element.rs lines 157-161): wrap the concrete element in a
fresh rendered-node wrapper. -/
def ElementFns.into_any {E S F ε : Type} (fns : ElementFns E S F ε) (element : E) :
    AnyElement S ε :=
  { E := E, F := F, fns := fns, inner := RenderedElement.new element }

/-- `impl IntoAnyElement for AnyElement` (element.rs lines 163-167): the identity. -/
def AnyElement.into_any {S ε : Type} (a : AnyElement S ε) : AnyElement S ε := a

/-- Access to a parent element's ordered child collection: the `children_mut` accessor of
the `ParentElement<S>` trait, split into a lawful getter/setter pair because the model has
no mutable references (in Rust `children_mut` returns a reference to an actual field, so
the round-trip law holds by construction). -/
structure ChildrenAccess (P S ε : Type) : Type 1 where
  get : P → List (AnyElement S ε)
  set : P → List (AnyElement S ε) → P
  get_set : ∀ p l, get (set p l) = l

/-- `ParentElement::child` (element.rs lines 27-33): convert the argument to a handle,
push it at the end of the child collection, return the owner. -/
def ChildrenAccess.child {P S ε C : Type} (acc : ChildrenAccess P S ε) (owner : P)
    (into_any : C → AnyElement S ε) (c : C) : P :=
  acc.set owner (acc.get owner ++ [into_any c])

/-- `ParentElement::children` (element.rs lines 35-42): convert each item of the sequence
to a handle, extend the child collection in iteration order, return the owner. -/
def ChildrenAccess.children {P S ε C : Type} (acc : ChildrenAccess P S ε) (owner : P)
    (into_any : C → AnyElement S ε) (cs : List C) : P :=
  acc.set owner (acc.get owner ++ cs.map into_any)

/-- A filesystem path as its list of components. -/
abbrev GPath := List String

/-- `Path::starts_with`: component-wise prefix test. -/
def GPath.starts_with (p base : GPath) : Bool := base.isPrefixOf p

/-- The filesystem, abstracted: `canonicalize` either resolves a path or fails with an
error (for example when the path does not exist). -/
structure Filesystem (ε : Type) where
  canonicalize : GPath → Except ε GPath

/-- The fields of `RealGitRepository` the path predicates read. -/
structure RealGitRepository where
  content_path : GPath
  git_dir_path : GPath
deriving DecidableEq, Repr

/-- `RealGitRepository::manages` (repository.rs lines 62-66): canonicalize, then test
whether the result starts with the content path; a canonicalization error yields false. -/
def RealGitRepository.manages {ε : Type} (fs : Filesystem ε)
    (repo : RealGitRepository) (path : GPath) : Bool :=
  match fs.canonicalize path with
  | .ok p => GPath.starts_with p repo.content_path
  | .error _ => false

/-- `RealGitRepository::in_dot_git` (repository.rs lines 68-72): canonicalize, then test
whether the result starts with the git directory path; an error yields false. -/
def RealGitRepository.in_dot_git {ε : Type} (fs : Filesystem ε)
    (repo : RealGitRepository) (path : GPath) : Bool :=
  match fs.canonicalize path with
  | .ok p => GPath.starts_with p repo.git_dir_path
  | .error _ => false

/-! Concrete instances used by witnesses and counterexamples. -/

/-- A trivial element over unit types whose layout and paint always succeed. -/
def unitFns : ElementFns Unit Unit Unit String :=
  { layout := fun _ _ => (Except.ok (0, ()), (), ()),
    paint := fun _ _ _ _ => (Except.ok (), (), (), ()) }

/-- An element whose own layout always fails. -/
def failLayoutFns : ElementFns Unit Unit Unit String :=
  { layout := fun _ _ => (Except.error "layout failed", (), ()),
    paint := fun _ _ _ _ => (Except.ok (), (), (), ()) }

/-- An element whose own paint always fails. -/
def failPaintFns : ElementFns Unit Unit Unit String :=
  { layout := fun _ _ => (Except.ok (0, ()), (), ()),
    paint := fun _ _ _ _ => (Except.error "draw failed", (), (), ()) }

/-- A fixed resolved geometry used by concrete contexts. -/
def demoLayout : Layout := { bounds := { origin := ⟨1, 2⟩, size := ⟨3, 4⟩ } }

/-- A view context that resolves every slot to `demoLayout`. -/
def okCx : ViewContext String := { resolve := fun _ => Except.ok demoLayout }

/-- A view context whose resolution always fails. -/
def errCx : ViewContext String := { resolve := fun _ => Except.error "no slot" }

/-- A filesystem on which canonicalization always fails. -/
def noFs : Filesystem String := { canonicalize := fun _ => Except.error "not found" }

/-- Claim C1: painting a rendered-node wrapper whose phase is Unrendered triggers the
protocol-violation panic with its diagnostic and never returns success; through a freshly
converted opaque handle the same panic occurs. -/
theorem paint_before_layout_panics {E S F ε : Type}
    (fns : ElementFns E S F ε) (cx : ViewContext ε) (re : RenderedElement E F)
    (state : S) (offset : Option Point) (el : E)
    (h : re.phase = ElementRenderPhase.rendered) :
    (RenderedElement.paint fns cx re state offset).result
        = PaintResult.panicked "must call layout before paint"
      ∧ (RenderedElement.paint fns cx re state offset).result ≠ PaintResult.ok
      ∧ ((fns.into_any el).paint cx state offset).result
        = PaintResult.panicked "must call layout before paint" := by
  obtain ⟨e0, ph⟩ := re
  cases h
  exact ⟨rfl, by simp [RenderedElement.paint], rfl⟩

/-- Witness for C1 at a concrete wrapper, element and context. -/
theorem paint_before_layout_panics_witness :
    (RenderedElement.new () : RenderedElement Unit Unit).phase
        = ElementRenderPhase.rendered
      ∧ ((RenderedElement.paint unitFns errCx (RenderedElement.new ()) () none).result
            = PaintResult.panicked "must call layout before paint"
          ∧ (RenderedElement.paint unitFns errCx (RenderedElement.new ()) () none).result
              ≠ PaintResult.ok
          ∧ ((unitFns.into_any ()).paint errCx () none).result
            = PaintResult.panicked "must call layout before paint") :=
  ⟨rfl, paint_before_layout_panics unitFns errCx (RenderedElement.new ()) () none () rfl⟩

/-- Claim C9: when the element's own layout fails, the wrapper's layout returns that error
and the render phase is left exactly as it was before the call. -/
theorem layout_error_preserves_phase {E S F ε : Type}
    (fns : ElementFns E S F ε) (re : RenderedElement E F) (state : S)
    (e : ε) (el' : E) (s' : S)
    (h : fns.layout re.element state = (Except.error e, el', s')) :
    (RenderedElement.layout fns re state).result = Except.error e
      ∧ (RenderedElement.layout fns re state).node.phase = re.phase := by
  unfold RenderedElement.layout
  rw [h]
  exact ⟨rfl, rfl⟩

/-- Witness for C9 at a concrete failing element. -/
theorem layout_error_preserves_phase_witness :
    failLayoutFns.layout () () = (Except.error "layout failed", (), ())
      ∧ ((RenderedElement.layout failLayoutFns
              ⟨(), ElementRenderPhase.layoutRequested 7 ()⟩ ()).result
            = Except.error "layout failed"
          ∧ (RenderedElement.layout failLayoutFns
              ⟨(), ElementRenderPhase.layoutRequested 7 ()⟩ ()).node.phase
            = ElementRenderPhase.layoutRequested 7 ()) :=
  ⟨rfl, layout_error_preserves_phase failLayoutFns
    ⟨(), ElementRenderPhase.layoutRequested 7 ()⟩ () "layout failed" () () rfl⟩

/-- Claim C4: a successful layout call invokes the element's layout, replaces any prior
phase with LayoutRequested holding exactly the slot and frame state just produced, and
returns that slot; after two layout calls with no paint in between only the second call's
frame state remains stored, and a later paint hands exactly that frame state (with that
slot's resolved geometry) to the element. -/
theorem layout_overwrites_phase {E S F ε : Type}
    (fns : ElementFns E S F ε) (re : RenderedElement E F) (state : S)
    (id₁ id₂ : LayoutId) (f₁ f₂ : F) (el₁ el₂ : E) (s₁ s₂ : S)
    (cx : ViewContext ε) (offset : Option Point) (L : Layout)
    (h₁ : fns.layout re.element state = (Except.ok (id₁, f₁), el₁, s₁))
    (h₂ : fns.layout el₁ s₁ = (Except.ok (id₂, f₂), el₂, s₂))
    (hres : cx.resolve id₂ = Except.ok L) :
    RenderedElement.layout fns re state
        = { result := Except.ok id₁,
            node := { element := el₁, phase := .layoutRequested id₁ f₁ },
            state := s₁, events := [.elementLayout] }
      ∧ (RenderedElement.layout fns (RenderedElement.layout fns re state).node
            (RenderedElement.layout fns re state).state).node
          = { element := el₂, phase := .layoutRequested id₂ f₂ }
      ∧ (RenderedElement.paint fns cx
            { element := el₂, phase := .layoutRequested id₂ f₂ } s₂ offset).events
          = [.resolve id₂, .elementPaint (L.apply_offset offset) f₂] := by
  refine ⟨?_, ?_, ?_⟩
  · unfold RenderedElement.layout
    rw [h₁]
  · simp only [RenderedElement.layout, h₁]
    rw [h₂]
  · rcases h₃ : fns.paint (L.apply_offset offset) el₂ s₂ f₂ with ⟨r, el₃, s₃, f₃⟩
    cases r <;> simp [RenderedElement.paint, hres, h₃]

/-- Witness for C4 at a concrete element and context. -/
theorem layout_overwrites_phase_witness :
    unitFns.layout () () = (Except.ok (0, ()), (), ())
      ∧ okCx.resolve 0 = Except.ok demoLayout
      ∧ (RenderedElement.layout unitFns (RenderedElement.new ()) ()
            = { result := Except.ok 0,
                node := { element := (), phase := .layoutRequested 0 () },
                state := (), events := [.elementLayout] }
          ∧ (RenderedElement.layout unitFns
                (RenderedElement.layout unitFns (RenderedElement.new ()) ()).node
                (RenderedElement.layout unitFns (RenderedElement.new ()) ()).state).node
              = { element := (), phase := .layoutRequested 0 () }
          ∧ (RenderedElement.paint unitFns okCx
                { element := (), phase := .layoutRequested 0 () } () none).events
              = [.resolve 0, .elementPaint (demoLayout.apply_offset none) ()]) :=
  ⟨rfl, rfl, layout_overwrites_phase unitFns (RenderedElement.new ()) ()
    0 0 () () () () () () okCx none demoLayout rfl rfl rfl⟩

/-- Claim C10: when canonicalization of a path fails, `manages` and `in_dot_git` both
return false, even if the path lexically lies under the content path or the git directory
path. -/
theorem manages_false_on_canonicalize_error {ε : Type} (fs : Filesystem ε)
    (repo : RealGitRepository) (path : GPath) (e : ε)
    (h : fs.canonicalize path = Except.error e) :
    RealGitRepository.manages fs repo path = false
      ∧ RealGitRepository.in_dot_git fs repo path = false := by
  unfold RealGitRepository.manages RealGitRepository.in_dot_git
  rw [h]
  exact ⟨rfl, rfl⟩

/-- Witness for C10 at a path lexically under both repository paths but whose
canonicalization fails. -/
theorem manages_false_on_canonicalize_error_witness :
    noFs.canonicalize ["repo", ".git", "HEAD"] = Except.error "not found"
      ∧ GPath.starts_with ["repo", ".git", "HEAD"] ["repo"] = true
      ∧ GPath.starts_with ["repo", ".git", "HEAD"] ["repo", ".git"] = true
      ∧ (RealGitRepository.manages noFs ⟨["repo"], ["repo", ".git"]⟩
            ["repo", ".git", "HEAD"] = false
          ∧ RealGitRepository.in_dot_git noFs ⟨["repo"], ["repo", ".git"]⟩
            ["repo", ".git", "HEAD"] = false) :=
  ⟨rfl, by decide, by decide,
    manages_false_on_canonicalize_error noFs ⟨["repo"], ["repo", ".git"]⟩
      ["repo", ".git", "HEAD"] "not found" rfl⟩

/-- Claim C3: after a successful layout and a successful paint, a second paint call
re-invokes the element's paint with exactly the resolved geometry and the frame state the
first paint stored, and its Painted branch makes no resolution call at all (its trace is
the single element-paint event, under any context). -/
theorem repeated_paint_reuses_geometry {E S F ε : Type}
    (fns : ElementFns E S F ε) (cx cx₂ : ViewContext ε)
    (re : RenderedElement E F) (s₀ s₃ : S)
    (id : LayoutId) (f : F) (el₁ : E) (s₁ : S)
    (off₁ off₂ : Option Point) (L : Layout)
    (el₂ : E) (s₂ : S) (f₂ : F)
    (h₁ : fns.layout re.element s₀ = (Except.ok (id, f), el₁, s₁))
    (hres : cx.resolve id = Except.ok L)
    (hp : fns.paint (L.apply_offset off₁) el₁ s₁ f = (Except.ok (), el₂, s₂, f₂)) :
    (RenderedElement.layout fns re s₀).node
        = { element := el₁, phase := .layoutRequested id f }
      ∧ (RenderedElement.paint fns cx
            { element := el₁, phase := .layoutRequested id f } s₁ off₁).node
          = { element := el₂, phase := .painted (L.apply_offset off₁) f₂ }
      ∧ (RenderedElement.paint fns cx₂
            { element := el₂, phase := .painted (L.apply_offset off₁) f₂ } s₃ off₂).events
          = [.elementPaint (L.apply_offset off₁) f₂] := by
  refine ⟨?_, ?_, ?_⟩
  · unfold RenderedElement.layout
    rw [h₁]
  · simp [RenderedElement.paint, hres, hp]
  · rcases h₃ : fns.paint (L.apply_offset off₁) el₂ s₃ f₂ with ⟨r, el₃, s₄, f₃⟩
    cases r <;> simp [RenderedElement.paint, h₃]

/-- Witness for C3 at a concrete element and context. -/
theorem repeated_paint_reuses_geometry_witness :
    unitFns.layout () () = (Except.ok (0, ()), (), ())
      ∧ okCx.resolve 0 = Except.ok demoLayout
      ∧ unitFns.paint (demoLayout.apply_offset none) () () ()
          = (Except.ok (), (), (), ())
      ∧ ((RenderedElement.layout unitFns (RenderedElement.new ()) ()).node
            = { element := (), phase := .layoutRequested 0 () }
          ∧ (RenderedElement.paint unitFns okCx
                { element := (), phase := .layoutRequested 0 () } () none).node
              = { element := (), phase := .painted (demoLayout.apply_offset none) () }
          ∧ (RenderedElement.paint unitFns okCx
                { element := (),
                  phase := .painted (demoLayout.apply_offset none) () } () none).events
              = [.elementPaint (demoLayout.apply_offset none) ()]) :=
  ⟨rfl, rfl, rfl, repeated_paint_reuses_geometry unitFns okCx okCx
    (RenderedElement.new ()) () () 0 () () () none none demoLayout () () ()
    rfl rfl rfl⟩

/-- Claim C5: a paint with offset some Δ made in the Layout-pending phase hands the
element geometry whose origin is the provider-resolved origin translated by Δ and stores
that translated geometry; a subsequent paint with an arbitrary offset argument reuses the
stored geometry unchanged, both in the call it makes and in what it stores back. -/
theorem offset_applied_once {E S F ε : Type}
    (fns : ElementFns E S F ε) (cx cx₂ : ViewContext ε)
    (el₁ : E) (id : LayoutId) (f : F) (s₁ s₃ : S) (Δ : Point)
    (off₂ : Option Point) (L T : Layout)
    (el₂ : E) (s₂ : S) (f₂ : F) (el₃ : E) (s₄ : S) (f₃ : F)
    (hres : cx.resolve id = Except.ok L)
    (hT : T = L.apply_offset (some Δ))
    (hp : fns.paint T el₁ s₁ f = (Except.ok (), el₂, s₂, f₂))
    (hp₂ : fns.paint T el₂ s₃ f₂ = (Except.ok (), el₃, s₄, f₃)) :
    T.bounds.origin = L.bounds.origin + Δ
      ∧ (RenderedElement.paint fns cx
            { element := el₁, phase := .layoutRequested id f } s₁ (some Δ)).events
          = [.resolve id, .elementPaint T f]
      ∧ (RenderedElement.paint fns cx
            { element := el₁, phase := .layoutRequested id f } s₁ (some Δ)).node
          = { element := el₂, phase := .painted T f₂ }
      ∧ (RenderedElement.paint fns cx₂
            { element := el₂, phase := .painted T f₂ } s₃ off₂).events
          = [.elementPaint T f₂]
      ∧ (RenderedElement.paint fns cx₂
            { element := el₂, phase := .painted T f₂ } s₃ off₂).node
          = { element := el₃, phase := .painted T f₃ } := by
  subst hT
  refine ⟨rfl, ?_, ?_, ?_, ?_⟩
  · simp [RenderedElement.paint, hres, hp]
  · simp [RenderedElement.paint, hres, hp]
  · simp [RenderedElement.paint, hp₂]
  · simp [RenderedElement.paint, hp₂]

/-- Witness for C5 at a concrete element, translation and a second paint whose offset
argument is again a some, showing it is ignored. -/
theorem offset_applied_once_witness :
    okCx.resolve 0 = Except.ok demoLayout
      ∧ unitFns.paint (demoLayout.apply_offset (some ⟨10, 20⟩)) () () ()
          = (Except.ok (), (), (), ())
      ∧ ((demoLayout.apply_offset (some ⟨10, 20⟩)).bounds.origin
            = demoLayout.bounds.origin + (⟨10, 20⟩ : Point)
          ∧ (RenderedElement.paint unitFns okCx
                { element := (), phase := .layoutRequested 0 () } () (some ⟨10, 20⟩)).events
              = [.resolve 0, .elementPaint (demoLayout.apply_offset (some ⟨10, 20⟩)) ()]
          ∧ (RenderedElement.paint unitFns okCx
                { element := (), phase := .layoutRequested 0 () } () (some ⟨10, 20⟩)).node
              = { element := (),
                  phase := .painted (demoLayout.apply_offset (some ⟨10, 20⟩)) () }
          ∧ (RenderedElement.paint unitFns okCx
                { element := (),
                  phase := .painted (demoLayout.apply_offset (some ⟨10, 20⟩)) () }
                () (some ⟨5, 5⟩)).events
              = [.elementPaint (demoLayout.apply_offset (some ⟨10, 20⟩)) ()]
          ∧ (RenderedElement.paint unitFns okCx
                { element := (),
                  phase := .painted (demoLayout.apply_offset (some ⟨10, 20⟩)) () }
                () (some ⟨5, 5⟩)).node
              = { element := (),
                  phase := .painted (demoLayout.apply_offset (some ⟨10, 20⟩)) () }) :=
  ⟨rfl, rfl, offset_applied_once unitFns okCx okCx () 0 () () ()
    ⟨10, 20⟩ (some ⟨5, 5⟩) demoLayout (demoLayout.apply_offset (some ⟨10, 20⟩))
    () () () () () () rfl rfl rfl rfl⟩

/-- Claim C7: when the element's own paint fails, the wrapper's paint returns exactly that
error, both from the Layout-pending branch and from the Painted branch, and the opaque
handle's paint result is exactly the wrapper's result. -/
theorem paint_error_propagated {E S F ε : Type}
    (fns : ElementFns E S F ε) (cx : ViewContext ε)
    (el : E) (id : LayoutId) (f : F) (s : S) (offset : Option Point) (L : Layout)
    (e : ε) (el' : E) (s' : S) (f' : F)
    (L₀ : Layout) (f₀ : F) (el₀ : E) (s₀ : S) (e₀ : ε) (el₀' : E) (s₀' : S) (f₀' : F)
    (a : AnyElement S ε) (sa : S) (offa : Option Point)
    (hres : cx.resolve id = Except.ok L)
    (hp : fns.paint (L.apply_offset offset) el s f = (Except.error e, el', s', f'))
    (hp₀ : fns.paint L₀ el₀ s₀ f₀ = (Except.error e₀, el₀', s₀', f₀')) :
    (RenderedElement.paint fns cx
        { element := el, phase := .layoutRequested id f } s offset).result
        = PaintResult.failed e
      ∧ (RenderedElement.paint fns cx
            { element := el₀, phase := .painted L₀ f₀ } s₀ offset).result
          = PaintResult.failed e₀
      ∧ (a.paint cx sa offa).result
          = (RenderedElement.paint a.fns cx a.inner sa offa).result := by
  refine ⟨?_, ?_, rfl⟩
  · simp [RenderedElement.paint, hres, hp]
  · simp [RenderedElement.paint, hp₀]

/-- Witness for C7 at a concrete element whose paint fails. -/
theorem paint_error_propagated_witness :
    okCx.resolve 0 = Except.ok demoLayout
      ∧ failPaintFns.paint (demoLayout.apply_offset none) () () ()
          = (Except.error "draw failed", (), (), ())
      ∧ failPaintFns.paint demoLayout () () ()
          = (Except.error "draw failed", (), (), ())
      ∧ ((RenderedElement.paint failPaintFns okCx
            { element := (), phase := .layoutRequested 0 () } () none).result
            = PaintResult.failed "draw failed"
          ∧ (RenderedElement.paint failPaintFns okCx
                { element := (), phase := .painted demoLayout () } () none).result
              = PaintResult.failed "draw failed"
          ∧ ((failPaintFns.into_any ()).paint okCx () none).result
              = (RenderedElement.paint (failPaintFns.into_any ()).fns okCx
                  (failPaintFns.into_any ()).inner () none).result) :=
  ⟨rfl, rfl, rfl, paint_error_propagated failPaintFns okCx () 0 () () none demoLayout
    "draw failed" () () () demoLayout () () () "draw failed" () () ()
    (failPaintFns.into_any ()) () none rfl rfl rfl⟩

/-- Claim C2 counterexample: a failing paint made in the Layout-pending phase does NOT
leave the phase that was stored immediately before the call; the call succeeds in failing
with the element's error, yet the stored phase afterwards differs from the pre-call
Layout-pending phase. -/
theorem paint_failure_not_phase_preserving :
    (RenderedElement.paint failPaintFns okCx
        ⟨(), ElementRenderPhase.layoutRequested 0 ()⟩ () none).result
        = PaintResult.failed "draw failed"
      ∧ (RenderedElement.paint failPaintFns okCx
          ⟨(), ElementRenderPhase.layoutRequested 0 ()⟩ () none).node.phase
          ≠ ElementRenderPhase.layoutRequested 0 () := by
  exact ⟨rfl, by decide⟩

/-- Claim C2 amended: after any failing paint call, the wrapper's render phase is
Unrendered — the take that moves the phase out of the wrapper installs the default
Unrendered phase, and the early error return never writes a phase back. -/
theorem paint_failure_leaves_unrendered {E S F ε : Type}
    (fns : ElementFns E S F ε) (cx : ViewContext ε) (re : RenderedElement E F)
    (state : S) (offset : Option Point) (e : ε)
    (h : (RenderedElement.paint fns cx re state offset).result = PaintResult.failed e) :
    (RenderedElement.paint fns cx re state offset).node.phase
      = ElementRenderPhase.rendered := by
  obtain ⟨el, ph⟩ := re
  cases ph with
  | rendered => simp [RenderedElement.paint] at h
  | layoutRequested id f =>
      rcases hres : cx.resolve id with e' | L
      · simp [RenderedElement.paint, hres]
      · rcases hp : fns.paint (L.apply_offset offset) el state f with ⟨r, el', s', f'⟩
        cases r with
        | error e' => simp [RenderedElement.paint, hres, hp]
        | ok u => simp [RenderedElement.paint, hres, hp] at h
  | painted L f =>
      rcases hp : fns.paint L el state f with ⟨r, el', s', f'⟩
      cases r with
      | error e' => simp [RenderedElement.paint, hp]
      | ok u => simp [RenderedElement.paint, hp] at h

/-- Witness for the amended C2 at a concrete failing paint. -/
theorem paint_failure_leaves_unrendered_witness :
    (RenderedElement.paint failPaintFns okCx
        ⟨(), ElementRenderPhase.painted demoLayout ()⟩ () none).result
        = PaintResult.failed "draw failed"
      ∧ (RenderedElement.paint failPaintFns okCx
          ⟨(), ElementRenderPhase.painted demoLayout ()⟩ () none).node.phase
          = ElementRenderPhase.rendered :=
  ⟨rfl, paint_failure_leaves_unrendered failPaintFns okCx
    ⟨(), ElementRenderPhase.painted demoLayout ()⟩ () none "draw failed" rfl⟩

/-- Claim C6: converting an opaque handle to a handle is the identity; converting a
concrete element yields a fresh wrapper in the Unrendered phase; and the handle's layout
and paint forward to the wrapper's operations on that element, with identical results,
identical shared-state evolution, identical wrapper evolution, and the identical
observable call trace up to the type erasure of the frame-state argument. -/
theorem into_any_roundtrip {E S F ε : Type}
    (fns : ElementFns E S F ε) (el : E) (a : AnyElement S ε)
    (s : S) (cx : ViewContext ε) (offset : Option Point) :
    a.into_any = a
      ∧ (fns.into_any el).inner = RenderedElement.new el
      ∧ (fns.into_any el).inner.phase = ElementRenderPhase.rendered
      ∧ ((fns.into_any el).layout s).result
          = (RenderedElement.layout fns (RenderedElement.new el) s).result
      ∧ ((fns.into_any el).layout s).state
          = (RenderedElement.layout fns (RenderedElement.new el) s).state
      ∧ ((fns.into_any el).layout s).node.inner
          = (RenderedElement.layout fns (RenderedElement.new el) s).node
      ∧ ((fns.into_any el).layout s).events
          = (RenderedElement.layout fns (RenderedElement.new el) s).events.map
              RenderEvent.erase
      ∧ ((fns.into_any el).paint cx s offset).result
          = (RenderedElement.paint fns cx (RenderedElement.new el) s offset).result
      ∧ ((fns.into_any el).paint cx s offset).state
          = (RenderedElement.paint fns cx (RenderedElement.new el) s offset).state
      ∧ ((fns.into_any el).paint cx s offset).node.inner
          = (RenderedElement.paint fns cx (RenderedElement.new el) s offset).node
      ∧ ((fns.into_any el).paint cx s offset).events
          = (RenderedElement.paint fns cx (RenderedElement.new el) s offset).events.map
              RenderEvent.erase :=
  ⟨rfl, rfl, rfl, rfl, rfl, rfl, rfl, rfl, rfl, rfl, rfl⟩

/-- Claim C8: appending child A via the single-child operation, then B, then the sequence
[C, D] via the sequence-append operation yields the child collection in order A, B, C, D
(each converted to an opaque handle), with each operation returning the updated owner so
the calls chain fluently. -/
theorem child_ordering {P S ε A : Type} (acc : ChildrenAccess P S ε) (p : P)
    (ia : A → AnyElement S ε) (a b c d : A) :
    acc.get (acc.children (acc.child (acc.child p ia a) ia b) ia [c, d])
      = acc.get p ++ [ia a, ia b, ia c, ia d] := by
  simp [ChildrenAccess.child, ChildrenAccess.children, acc.get_set]

end Zed
